import Mathlib

/-!
Verification of the runtime-polymorphic PWM access layer
(`rp2040-hal/src/pwm/dyn_slice.rs`).

The per-slice hardware register file and the shared interrupt registers are
external collaborators of the module under verification; they are embedded
here as explicit state records, and every operation of `DynSlice` /
`DynChannel` is translated as a pure state-passing function over them.
Machine integers are `Nat` with explicit `% 2^w` at the register boundary.
-/

namespace PwmDyn

/-- Value-level slice id (`DynSliceId`, a `u8` in the source). -/
structure DynSliceId where
  num : Nat
  deriving DecidableEq, Repr

/-- Slice counting modes (`DynSliceMode`). -/
inductive DynSliceMode where
  | FreeRunning
  | InputHighRunning
  | CountRisingEdge
  | CountFallingEdge
  deriving DecidableEq, Repr

/-- Channel ids (`DynChannelId`). -/
inductive DynChannelId where
  | A
  | B
  deriving DecidableEq, Repr

/-- `DynSliceRegisters`: the register-interface binding, holding the slice id. -/
structure DynSliceRegisters where
  id : DynSliceId
  deriving DecidableEq, Repr

/-- `DynSliceRegisters::new`. -/
def DynSliceRegisters.new (id : DynSliceId) : DynSliceRegisters :=
  { id := id }

/-- Modelled from the spec: the per-slice hardware register file behind the
Register Interface collaborator (`super::reg`, not part of the sources).
Section 6 of the spec lists exactly these fields with infallible read/write
accessors. Fields hold the register contents as naturals. -/
structure SliceRegs where
  ph_correct : Bool
  div_int : Nat
  div_frac : Nat
  inv_a : Bool
  inv_b : Bool
  top : Nat
  ctr : Nat
  cc_a : Nat
  cc_b : Nat
  en : Bool
  deriving DecidableEq, Repr

namespace SliceRegs

/-- Modelled from the spec: `write_ph_correct` accessor of the Register Interface. -/
def write_ph_correct (r : SliceRegs) (b : Bool) : SliceRegs := { r with ph_correct := b }

/-- Modelled from the spec: `write_div_int` accessor (8-bit field). -/
def write_div_int (r : SliceRegs) (v : Nat) : SliceRegs := { r with div_int := v % 2^8 }

/-- Modelled from the spec: `write_div_frac` accessor (8-bit field). -/
def write_div_frac (r : SliceRegs) (v : Nat) : SliceRegs := { r with div_frac := v % 2^8 }

/-- Modelled from the spec: `write_inv_a` accessor. -/
def write_inv_a (r : SliceRegs) (b : Bool) : SliceRegs := { r with inv_a := b }

/-- Modelled from the spec: `write_inv_b` accessor. -/
def write_inv_b (r : SliceRegs) (b : Bool) : SliceRegs := { r with inv_b := b }

/-- Modelled from the spec: `write_top` accessor (16-bit field). -/
def write_top (r : SliceRegs) (v : Nat) : SliceRegs := { r with top := v % 2^16 }

/-- Modelled from the spec: `write_ctr` accessor (16-bit field). -/
def write_ctr (r : SliceRegs) (v : Nat) : SliceRegs := { r with ctr := v % 2^16 }

/-- Modelled from the spec: `write_cc_a` accessor (16-bit duty field, channel A). -/
def write_cc_a (r : SliceRegs) (v : Nat) : SliceRegs := { r with cc_a := v % 2^16 }

/-- Modelled from the spec: `write_cc_b` accessor (16-bit duty field, channel B). -/
def write_cc_b (r : SliceRegs) (v : Nat) : SliceRegs := { r with cc_b := v % 2^16 }

/-- Modelled from the spec: `write_enable` accessor. -/
def write_enable (r : SliceRegs) (b : Bool) : SliceRegs := { r with en := b }

/-- Modelled from the spec: `read_cc_a` accessor. -/
def read_cc_a (r : SliceRegs) : Nat := r.cc_a

/-- Modelled from the spec: `read_cc_b` accessor. -/
def read_cc_b (r : SliceRegs) : Nat := r.cc_b

/-- Modelled from the spec: `read_top` accessor. -/
def read_top (r : SliceRegs) : Nat := r.top

/-- Modelled from the spec: `read_ctr` accessor. -/
def read_ctr (r : SliceRegs) : Nat := r.ctr

/-- The duty register selected by a channel id (`read_cc_a` / `read_cc_b`). -/
def read_cc (r : SliceRegs) : DynChannelId → Nat
  | DynChannelId.A => r.read_cc_a
  | DynChannelId.B => r.read_cc_b

end SliceRegs

/-- `DynSlice`: runtime handle bound to one physical slice. -/
structure DynSlice where
  regs : DynSliceRegisters
  mode : DynSliceMode
  deriving DecidableEq, Repr

namespace DynSlice

/-- `DynSlice::new`. -/
def new (id : DynSliceId) (mode : DynSliceMode) : DynSlice :=
  { regs := DynSliceRegisters.new id, mode := mode }

/-- `DynSlice::id`. -/
def id (s : DynSlice) : DynSliceId := s.regs.id

/-- `DynSlice::default_config`: the exact write sequence of the source. -/
def default_config (_s : DynSlice) (hw : SliceRegs) : SliceRegs :=
  ((((((((hw.write_ph_correct false).write_div_int 1).write_div_frac 0).write_inv_a
      false).write_inv_b false).write_top 0xffff).write_ctr 0x0000).write_cc_a
      0).write_cc_b 0

/-- `DynSlice::bitmask`: `1 << slice_id` as a `u32` value. -/
def bitmask (s : DynSlice) : Nat := (1 <<< s.id.num) % 2^32

/-- Modelled from the spec: the shared interrupt-status register (`pac::PWM`
`intr`, external to the sources) is write-one-to-clear — a write clears
exactly the bits set in the written word and leaves the others. -/
def w1c_write (status written : Nat) : Nat :=
  status &&& ((2^32 - 1) ^^^ written % 2^32)

/-- `DynSlice::clear_interrupt`: writes this slice's bitmask to the
write-one-to-clear status register; returns the new register state. -/
def clear_interrupt (s : DynSlice) (intr : Nat) : Nat :=
  w1c_write intr s.bitmask

end DynSlice

/-- `DynChannel`: runtime handle for one (slice, channel) pair with the
software duty shadow and enabled flag. -/
structure DynChannel where
  regs : DynSliceRegisters
  mode : DynSliceMode
  channel_id : DynChannelId
  duty_cycle : Nat
  enabled : Bool
  deriving DecidableEq, Repr

namespace DynChannel

/-- `DynChannel::new`: fresh handle with `duty_cycle = 0`, `enabled = false`. -/
def new (id : DynSliceId) (mode : DynSliceMode) (channel_id : DynChannelId) :
    DynChannel :=
  { regs := DynSliceRegisters.new id
    mode := mode
    channel_id := channel_id
    duty_cycle := 0
    enabled := false }

/-- `PwmPin::disable` for `DynChannel`: if enabled, read the hardware duty
into the shadow; clear the enabled flag; zero the hardware duty register. -/
def disable (ch : DynChannel) (hw : SliceRegs) : DynChannel × SliceRegs :=
  match ch.channel_id with
  | DynChannelId.A =>
      let ch1 := if ch.enabled then { ch with duty_cycle := hw.read_cc_a } else ch
      ({ ch1 with enabled := false }, hw.write_cc_a 0)
  | DynChannelId.B =>
      let ch1 := if ch.enabled then { ch with duty_cycle := hw.read_cc_b } else ch
      ({ ch1 with enabled := false }, hw.write_cc_b 0)

/-- `PwmPin::enable` for `DynChannel`: if not enabled, set the flag and write
the shadow duty into the hardware duty register; otherwise do nothing. -/
def enable (ch : DynChannel) (hw : SliceRegs) : DynChannel × SliceRegs :=
  if !ch.enabled then
    let ch1 := { ch with enabled := true }
    match ch1.channel_id with
    | DynChannelId.A => (ch1, hw.write_cc_a ch1.duty_cycle)
    | DynChannelId.B => (ch1, hw.write_cc_b ch1.duty_cycle)
  else (ch, hw)

/-- `PwmPin::get_duty` for `DynChannel`: hardware register when enabled, the
shadow otherwise. -/
def get_duty (ch : DynChannel) (hw : SliceRegs) : Nat :=
  if ch.enabled then
    match ch.channel_id with
    | DynChannelId.A => hw.read_cc_a
    | DynChannelId.B => hw.read_cc_b
  else ch.duty_cycle

/-- `PwmPin::get_max_duty` for `DynChannel`. -/
def get_max_duty (_ch : DynChannel) (hw : SliceRegs) : Nat := hw.read_top

/-- `PwmPin::set_duty` for `DynChannel`: always update the shadow; write the
hardware duty register as well when enabled. -/
def set_duty (ch : DynChannel) (hw : SliceRegs) (duty : Nat) : DynChannel × SliceRegs :=
  let ch1 := { ch with duty_cycle := duty }
  if ch1.enabled then
    match ch1.channel_id with
    | DynChannelId.A => (ch1, hw.write_cc_a duty)
    | DynChannelId.B => (ch1, hw.write_cc_b duty)
  else (ch1, hw)

end DynChannel

/-- Modelled from the spec: a statically-typed channel handle
(`Channel<I, M, C>`, defined outside the sources). Its compile-time-known
identity constants (`I::DYN`, `M::DYN`, `C::DYN`) are carried as data, and
`hw_enabled` records whether the hardware channel it governs is already
running — state the conversion consumes but, per the source, never reads. -/
structure StaticChannel where
  slice_dyn : DynSliceId
  mode_dyn : DynSliceMode
  chan_dyn : DynChannelId
  hw_enabled : Bool
  deriving DecidableEq, Repr

/-- `impl From<Channel<I, M, C>> for DynChannel`: consumes the static handle
and calls `DynChannel::new` on its identity constants, ignoring everything
else about it. -/
def dynChannel_fromStatic (c : StaticChannel) : DynChannel :=
  DynChannel.new c.slice_dyn c.mode_dyn c.chan_dyn

/-- Modelled from the spec: pin functions of the pin-multiplexing
collaborator; only the PWM function (`DYN_FUNCTION_PWM`) is relevant here. -/
inductive DynFunction where
  | pwm
  deriving DecidableEq, Repr

/-- Modelled from the spec: a type-erased pin (`DynPin`, defined in the gpio
subsystem outside the sources). `pwm_capable` says whether routing this pin
to the PWM function succeeds; `func` is its current routing. -/
structure DynPin where
  pwm_capable : Bool
  func : Option DynFunction
  deriving DecidableEq, Repr

/-- Modelled from the spec: `DynPin::try_into_mode` — switching a pin to a
peripheral function either succeeds (pin now routed) or fails (pin
incompatible with that routing). -/
def DynPin.try_into_mode (pin : DynPin) (f : DynFunction) : Except Unit DynPin :=
  if pin.pwm_capable then Except.ok { pin with func := some f }
  else Except.error ()

/-- `DynChannel::input_from`: delegates to `try_into_mode(DYN_FUNCTION_PWM)`
and unwraps the result. `none` models the process abort of `unwrap()` on
failure; the infallible return type of the source (`()`) carries no error. -/
def DynChannel.input_from (_ch : DynChannel) (pin : DynPin) : Option Unit :=
  match pin.try_into_mode DynFunction.pwm with
  | Except.ok _ => some ()
  | Except.error _ => none

/-- `DynChannel::output_to`: same delegation and unwrap as `input_from`. -/
def DynChannel.output_to (_ch : DynChannel) (pin : DynPin) : Option Unit :=
  match pin.try_into_mode DynFunction.pwm with
  | Except.ok _ => some ()
  | Except.error _ => none

end PwmDyn

namespace PwmDyn

/-! ## Theorems about the claims -/

/-- Claim C1: for a Dynamic Channel in the Enabled state whose hardware duty
register holds `d`, `disable()` then `enable()` with no intervening
`setDuty` restores the hardware duty register to exactly `d`, and
`getDuty()` afterwards returns `d`. -/
theorem disable_then_enable_restores_duty
    (ch : DynChannel) (hw : SliceRegs) (d : Nat)
    (hen : ch.enabled = true)
    (hd : hw.read_cc ch.channel_id = d) (hd16 : d < 2^16) :
    (((ch.disable hw).1.enable (ch.disable hw).2).2).read_cc ch.channel_id = d
    ∧ ((ch.disable hw).1.enable (ch.disable hw).2).1.get_duty
        ((ch.disable hw).1.enable (ch.disable hw).2).2 = d := by
  norm_num at hd16
  cases hch : ch.channel_id <;>
    simp only [hch, SliceRegs.read_cc, SliceRegs.read_cc_a, SliceRegs.read_cc_b] at hd <;>
    simp [DynChannel.disable, DynChannel.enable, DynChannel.get_duty,
      SliceRegs.read_cc, SliceRegs.read_cc_a, SliceRegs.read_cc_b,
      SliceRegs.write_cc_a, SliceRegs.write_cc_b, hch, hen, hd, hd16,
      Nat.mod_eq_of_lt]

/-- Closed witness for C1: the spec scenario — channel A enabled, hardware
duty 20000, then disable;enable restores 20000. -/
theorem disable_then_enable_restores_duty_witness :
    ((⟨⟨⟨3⟩⟩, DynSliceMode.FreeRunning, DynChannelId.A, 0, true⟩ :
        DynChannel).enabled = true
      ∧ (⟨false, 1, 0, false, false, 0xffff, 0, 20000, 0, true⟩ :
        SliceRegs).read_cc DynChannelId.A = 20000 ∧ 20000 < 2^16)
    ∧ ((((⟨⟨⟨3⟩⟩, DynSliceMode.FreeRunning, DynChannelId.A, 0, true⟩ :
          DynChannel).disable
            ⟨false, 1, 0, false, false, 0xffff, 0, 20000, 0, true⟩).1.enable
          ((⟨⟨⟨3⟩⟩, DynSliceMode.FreeRunning, DynChannelId.A, 0, true⟩ :
          DynChannel).disable
            ⟨false, 1, 0, false, false, 0xffff, 0, 20000, 0, true⟩).2).2).read_cc
          (⟨⟨⟨3⟩⟩, DynSliceMode.FreeRunning, DynChannelId.A, 0, true⟩ :
          DynChannel).channel_id = 20000
      ∧ (((⟨⟨⟨3⟩⟩, DynSliceMode.FreeRunning, DynChannelId.A, 0, true⟩ :
          DynChannel).disable
            ⟨false, 1, 0, false, false, 0xffff, 0, 20000, 0, true⟩).1.enable
          ((⟨⟨⟨3⟩⟩, DynSliceMode.FreeRunning, DynChannelId.A, 0, true⟩ :
          DynChannel).disable
            ⟨false, 1, 0, false, false, 0xffff, 0, 20000, 0, true⟩).2).1.get_duty
          (((⟨⟨⟨3⟩⟩, DynSliceMode.FreeRunning, DynChannelId.A, 0, true⟩ :
          DynChannel).disable
            ⟨false, 1, 0, false, false, 0xffff, 0, 20000, 0, true⟩).1.enable
          ((⟨⟨⟨3⟩⟩, DynSliceMode.FreeRunning, DynChannelId.A, 0, true⟩ :
          DynChannel).disable
            ⟨false, 1, 0, false, false, 0xffff, 0, 20000, 0, true⟩).2).2 = 20000 :=
  ⟨⟨rfl, rfl, by decide⟩,
    disable_then_enable_restores_duty
      ⟨⟨⟨3⟩⟩, DynSliceMode.FreeRunning, DynChannelId.A, 0, true⟩
      ⟨false, 1, 0, false, false, 0xffff, 0, 20000, 0, true⟩ 20000 rfl rfl
      (by decide)⟩

/-- Claim C2: calling `disable()` twice in a row leaves the shadow duty value
unchanged after the second call — a disable on an already-Disabled channel
does not overwrite the shadow with a re-read of the hardware register. -/
theorem disable_twice_keeps_shadow (ch : DynChannel) (hw : SliceRegs) :
    (((ch.disable hw).1.disable (ch.disable hw).2).1).duty_cycle
      = ((ch.disable hw).1).duty_cycle := by
  cases hch : ch.channel_id <;> cases hen : ch.enabled <;>
    simp [DynChannel.disable, hch, hen, SliceRegs.read_cc_a, SliceRegs.read_cc_b,
      SliceRegs.write_cc_a, SliceRegs.write_cc_b]

/-- Claim C3: on a Disabled channel whose hardware duty register is 0,
`setDuty(v)` leaves the hardware duty register at 0 and `getDuty()`
immediately after returns `v`. -/
theorem set_duty_while_disabled (ch : DynChannel) (hw : SliceRegs) (v : Nat)
    (hdis : ch.enabled = false) (hcc : hw.read_cc ch.channel_id = 0)
    (_hv : v < 2^16) :
    ((ch.set_duty hw v).2).read_cc ch.channel_id = 0
    ∧ (ch.set_duty hw v).1.get_duty (ch.set_duty hw v).2 = v := by
  cases hch : ch.channel_id <;>
    simp only [hch, SliceRegs.read_cc, SliceRegs.read_cc_a, SliceRegs.read_cc_b] at hcc <;>
    simp [DynChannel.set_duty, DynChannel.get_duty, SliceRegs.read_cc,
      SliceRegs.read_cc_a, SliceRegs.read_cc_b, hch, hdis, hcc]

/-- Closed witness for C3: a disabled channel B with hardware duty 0 takes
`setDuty 1234` into the shadow only. -/
theorem set_duty_while_disabled_witness :
    ((⟨⟨⟨2⟩⟩, DynSliceMode.FreeRunning, DynChannelId.B, 7, false⟩ :
        DynChannel).enabled = false
      ∧ (⟨false, 1, 0, false, false, 0xffff, 0, 55, 0, true⟩ :
        SliceRegs).read_cc DynChannelId.B = 0 ∧ 1234 < 2^16)
    ∧ (((⟨⟨⟨2⟩⟩, DynSliceMode.FreeRunning, DynChannelId.B, 7, false⟩ :
          DynChannel).set_duty
          ⟨false, 1, 0, false, false, 0xffff, 0, 55, 0, true⟩ 1234).2).read_cc
          (⟨⟨⟨2⟩⟩, DynSliceMode.FreeRunning, DynChannelId.B, 7, false⟩ :
          DynChannel).channel_id = 0
      ∧ ((⟨⟨⟨2⟩⟩, DynSliceMode.FreeRunning, DynChannelId.B, 7, false⟩ :
          DynChannel).set_duty
          ⟨false, 1, 0, false, false, 0xffff, 0, 55, 0, true⟩ 1234).1.get_duty
          ((⟨⟨⟨2⟩⟩, DynSliceMode.FreeRunning, DynChannelId.B, 7, false⟩ :
          DynChannel).set_duty
          ⟨false, 1, 0, false, false, 0xffff, 0, 55, 0, true⟩ 1234).2 = 1234 :=
  ⟨⟨rfl, rfl, by decide⟩,
    set_duty_while_disabled
      ⟨⟨⟨2⟩⟩, DynSliceMode.FreeRunning, DynChannelId.B, 7, false⟩
      ⟨false, 1, 0, false, false, 0xffff, 0, 55, 0, true⟩ 1234 rfl rfl (by decide)⟩

/-- Claim C4: on an Enabled channel, `setDuty(v)` writes `v` into the
hardware duty register for the channel's selector and a subsequent
`getDuty()` returns `v`. -/
theorem set_duty_while_enabled (ch : DynChannel) (hw : SliceRegs) (v : Nat)
    (hen : ch.enabled = true) (hv : v < 2^16) :
    ((ch.set_duty hw v).2).read_cc ch.channel_id = v
    ∧ (ch.set_duty hw v).1.get_duty (ch.set_duty hw v).2 = v := by
  norm_num at hv
  cases hch : ch.channel_id <;>
    simp [DynChannel.set_duty, DynChannel.get_duty, SliceRegs.read_cc,
      SliceRegs.read_cc_a, SliceRegs.read_cc_b, SliceRegs.write_cc_a,
      SliceRegs.write_cc_b, hch, hen, hv, Nat.mod_eq_of_lt]

/-- Closed witness for C4: an enabled channel A takes `setDuty 40000` into
both the hardware register and the subsequent `getDuty()`. -/
theorem set_duty_while_enabled_witness :
    ((⟨⟨⟨0⟩⟩, DynSliceMode.FreeRunning, DynChannelId.A, 9, true⟩ :
        DynChannel).enabled = true ∧ 40000 < 2^16)
    ∧ (((⟨⟨⟨0⟩⟩, DynSliceMode.FreeRunning, DynChannelId.A, 9, true⟩ :
          DynChannel).set_duty
          ⟨false, 1, 0, false, false, 0xffff, 0, 3, 4, true⟩ 40000).2).read_cc
          (⟨⟨⟨0⟩⟩, DynSliceMode.FreeRunning, DynChannelId.A, 9, true⟩ :
          DynChannel).channel_id = 40000
      ∧ ((⟨⟨⟨0⟩⟩, DynSliceMode.FreeRunning, DynChannelId.A, 9, true⟩ :
          DynChannel).set_duty
          ⟨false, 1, 0, false, false, 0xffff, 0, 3, 4, true⟩ 40000).1.get_duty
          ((⟨⟨⟨0⟩⟩, DynSliceMode.FreeRunning, DynChannelId.A, 9, true⟩ :
          DynChannel).set_duty
          ⟨false, 1, 0, false, false, 0xffff, 0, 3, 4, true⟩ 40000).2 = 40000 :=
  ⟨⟨rfl, by decide⟩,
    set_duty_while_enabled
      ⟨⟨⟨0⟩⟩, DynSliceMode.FreeRunning, DynChannelId.A, 9, true⟩
      ⟨false, 1, 0, false, false, 0xffff, 0, 3, 4, true⟩ 40000 rfl (by decide)⟩

end PwmDyn

namespace PwmDyn

/-- Claim C5: every Dynamic Channel starts in the Disabled state with shadow
duty 0 — the privileged constructor does so directly, and the conversion
from a static channel (enabled or not: `hw_enabled` is ignored) produces the
same snapshot, taking only the identity constants as-is. -/
theorem dyn_channel_initial_state :
    ∀ (id : DynSliceId) (m : DynSliceMode) (c : DynChannelId)
      (sc : StaticChannel),
      (DynChannel.new id m c).enabled = false
      ∧ (DynChannel.new id m c).duty_cycle = 0
      ∧ (dynChannel_fromStatic sc).enabled = false
      ∧ (dynChannel_fromStatic sc).duty_cycle = 0
      ∧ dynChannel_fromStatic sc
          = DynChannel.new sc.slice_dyn sc.mode_dyn sc.chan_dyn := by
  intro id m c sc
  simp [DynChannel.new, dynChannel_fromStatic]

/-- Claim C6: after `defaultConfig()`, the slice registers read phase-correct
off, divisor (1, 0), both duties 0, top `0xFFFF`, counter 0; the operation
is a total function with no error conditions. -/
theorem default_config_register_values (s : DynSlice) (hw : SliceRegs) :
    (s.default_config hw).ph_correct = false
    ∧ (s.default_config hw).div_int = 1
    ∧ (s.default_config hw).div_frac = 0
    ∧ (s.default_config hw).cc_a = 0
    ∧ (s.default_config hw).cc_b = 0
    ∧ (s.default_config hw).top = 0xffff
    ∧ (s.default_config hw).ctr = 0 := by
  simp [DynSlice.default_config, SliceRegs.write_ph_correct,
    SliceRegs.write_div_int, SliceRegs.write_div_frac, SliceRegs.write_inv_a,
    SliceRegs.write_inv_b, SliceRegs.write_top, SliceRegs.write_ctr,
    SliceRegs.write_cc_a, SliceRegs.write_cc_b]

/-- Claim C10: `defaultConfig()` additionally resets the output-inversion
flags of both channels A and B to off, an effect beyond the register list
stated in the spec. -/
theorem default_config_clears_inversion (s : DynSlice) (hw : SliceRegs) :
    (s.default_config hw).inv_a = false
    ∧ (s.default_config hw).inv_b = false := by
  simp [DynSlice.default_config, SliceRegs.write_ph_correct,
    SliceRegs.write_div_int, SliceRegs.write_div_frac, SliceRegs.write_inv_a,
    SliceRegs.write_inv_b, SliceRegs.write_top, SliceRegs.write_ctr,
    SliceRegs.write_cc_a, SliceRegs.write_cc_b]

/-- Claim C7: for valid slice ids (in range for the 8-slice peripheral),
`bitmask()` equals `1 <<< i`, is independent of the slice's mode (a pure
function of identity), and distinct ids give distinct bitmasks. -/
theorem bitmask_shl_and_injective
    (m msame mj : DynSliceMode) (i j : Nat)
    (hi : i < 8) (hj : j < 8) (hij : i ≠ j) :
    (DynSlice.new ⟨i⟩ m).bitmask = 1 <<< i
    ∧ (DynSlice.new ⟨i⟩ m).bitmask = (DynSlice.new ⟨i⟩ msame).bitmask
    ∧ (DynSlice.new ⟨i⟩ m).bitmask ≠ (DynSlice.new ⟨j⟩ mj).bitmask := by
  have hlt : ∀ k : Nat, k < 8 → 1 <<< k < 2^32 := by
    intro k hk
    rw [Nat.one_shiftLeft]
    calc 2^k ≤ 2^7 := Nat.pow_le_pow_right (by norm_num) (by omega)
      _ < 2^32 := by norm_num
  refine ⟨?_, ?_, ?_⟩
  · exact Nat.mod_eq_of_lt (hlt i hi)
  · rfl
  · show (1 <<< i) % 2^32 ≠ (1 <<< j) % 2^32
    rw [Nat.mod_eq_of_lt (hlt i hi), Nat.mod_eq_of_lt (hlt j hj),
      Nat.one_shiftLeft, Nat.one_shiftLeft]
    intro heq
    exact hij (Nat.pow_right_injective (le_refl 2) heq)

/-- Closed witness for C7 at slice ids 3 and 5 (the spec scenario has
`bitmask() = 0b1000` for slice 3). -/
theorem bitmask_shl_and_injective_witness :
    (3 < 8 ∧ 5 < 8 ∧ (3 : Nat) ≠ 5)
    ∧ ((DynSlice.new ⟨3⟩ DynSliceMode.FreeRunning).bitmask = 1 <<< 3
      ∧ (DynSlice.new ⟨3⟩ DynSliceMode.FreeRunning).bitmask
          = (DynSlice.new ⟨3⟩ DynSliceMode.CountRisingEdge).bitmask
      ∧ (DynSlice.new ⟨3⟩ DynSliceMode.FreeRunning).bitmask
          ≠ (DynSlice.new ⟨5⟩ DynSliceMode.FreeRunning).bitmask) :=
  ⟨⟨by decide, by decide, by decide⟩,
    bitmask_shl_and_injective DynSliceMode.FreeRunning
      DynSliceMode.CountRisingEdge DynSliceMode.FreeRunning 3 5
      (by decide) (by decide) (by decide)⟩

/-- Absorbing a repeated bitwise-and: needed for write-one-to-clear
idempotence. -/
theorem land_land_self (a b : Nat) : a &&& b &&& b = a &&& b := by
  apply Nat.eq_of_testBit_eq
  intro k
  simp only [Nat.testBit_land]
  cases a.testBit k <;> cases b.testBit k <;> rfl

/-- Claim C8: `clearInterrupt()` is idempotent — for every slice and every
state of the shared write-one-to-clear status register, clearing twice
yields the same register state as clearing once. -/
theorem clear_interrupt_idempotent (s : DynSlice) (intr : Nat) :
    s.clear_interrupt (s.clear_interrupt intr) = s.clear_interrupt intr := by
  simp only [DynSlice.clear_interrupt, DynSlice.w1c_write]
  exact land_land_self intr _

/-- Claim C9: `inputFrom` and `outputTo` delegate the switch to the PWM
function to the pin collaborator; when it fails they abort the process
(modelled by `none`), and when it succeeds they return plain `()` — the
return type carries no error value in either case. -/
theorem pin_routing_aborts_on_failure (ch : DynChannel) (pin : DynPin) :
    ch.input_from pin = (if pin.pwm_capable then some () else none)
    ∧ ch.output_to pin = (if pin.pwm_capable then some () else none)
    ∧ (ch.input_from pin = none
        ↔ pin.try_into_mode DynFunction.pwm = Except.error ()) := by
  cases hp : pin.pwm_capable <;>
    simp [DynChannel.input_from, DynChannel.output_to, DynPin.try_into_mode, hp]

end PwmDyn
